import Mathlib

/-!
Verification of the library circulation tool (`src/main.py`).

The program stores two relational tables: `lib` (book inventory) and
`roles` (user credentials).  The persistence gateway (`Database`) runs
three parameterized SQL statements against them; the session controller
(`LibraryApp`) dispatches role-gated menu actions and notifies an ordered
list of observers after successful mutations.

Shallow embedding conventions:
- a table is a `List` of rows in storage order;
- the SQL `UPDATE ... WHERE` statements become `List.map` with the row
  transformer applying exactly when the `WHERE` clause holds;
- `cursor.rowcount` is the number of rows the `WHERE` clause matched;
- a Python method that may `raise ValueError` returns `Except String`;
  `Database.return_book` contains no raise, so it always returns `.ok`;
- `datetime.now().date()` is passed in as an explicit `today` argument;
- console output of an action is returned as a `List String` of printed
  lines (the book-listing display of `show_books` is not tracked);
- each observer is represented by the list of messages it has received,
  in delivery order.
-/

/-- A row of table `lib(id, title, author, release_date, borrowed_by,
borrow_date, return_date)`.  The three trailing columns are nullable. -/
structure Book where
  id : Int
  title : String
  author : String
  release_date : String
  borrowed_by : Option String
  borrow_date : Option String
  return_date : Option String
deriving DecidableEq, Repr

/-- A row of table `roles(username, password, role)`. -/
structure RoleRow where
  username : String
  password : String
  role : String
deriving DecidableEq, Repr

/-- The relational store seen by the process: both tables. -/
structure DBState where
  lib : List Book
  roles : List RoleRow
deriving DecidableEq, Repr

namespace Database

/-- The `WHERE id = %s AND borrowed_by IS NULL` clause of the UPDATE in
`Database.borrow_book`. -/
def borrowWhere (book_id : Int) (b : Book) : Bool :=
  b.id == book_id && b.borrowed_by == none

/-- Effect of the UPDATE in `Database.borrow_book` on a single row:
`SET borrowed_by = %s, borrow_date = %s, return_date = %s` when the
WHERE clause matches, identity otherwise. -/
def borrowUpdateRow (book_id : Int) (username today return_date : String)
    (b : Book) : Book :=
  if borrowWhere book_id b then
    { b with
      borrowed_by := some username
      borrow_date := some today
      return_date := some return_date }
  else b

/-- The store after the UPDATE of `Database.borrow_book` commits:
every `lib` row is rewritten through `borrowUpdateRow`; `roles` is
untouched. -/
def borrowApply (s : DBState) (book_id : Int)
    (username today return_date : String) : DBState :=
  { s with lib := s.lib.map (borrowUpdateRow book_id username today return_date) }

/-- `cursor.rowcount` after the UPDATE of `Database.borrow_book`: how
many rows the WHERE clause matched. -/
def borrowRowcount (s : DBState) (book_id : Int) : Nat :=
  s.lib.countP (borrowWhere book_id)

/-- `Database.borrow_book(book_id, username, return_date)`: runs the
conditional UPDATE, commits, and raises `ValueError` exactly when
`rowcount == 0`.  `today` stands for `datetime.now().date()`. -/
def borrow_book (s : DBState) (book_id : Int)
    (username today return_date : String) : Except String DBState :=
  if borrowRowcount s book_id = 0 then
    Except.error "Книга уже занята или не существует."
  else
    Except.ok (borrowApply s book_id username today return_date)

/-- Effect of the UPDATE in `Database.return_book` on a single row:
`SET borrowed_by = NULL, borrow_date = NULL, return_date = NULL` when
`id = %s`, identity otherwise. -/
def returnUpdateRow (book_id : Int) (b : Book) : Book :=
  if b.id == book_id then
    { b with borrowed_by := none, borrow_date := none, return_date := none }
  else b

/-- The store after the UPDATE of `Database.return_book` commits. -/
def returnApply (s : DBState) (book_id : Int) : DBState :=
  { s with lib := s.lib.map (returnUpdateRow book_id) }

/-- `Database.return_book(book_id)`: unconditional UPDATE, commit; the
method body contains no `raise`, so it never signals an error. -/
def return_book (s : DBState) (book_id : Int) : Except String DBState :=
  Except.ok (returnApply s book_id)

/-- `Database.authenticate_user(username, password)`: `SELECT role FROM
roles WHERE username = %s AND password = %s`, then `fetchone()` — the
first matching row in storage order, or `None`. -/
def authenticate_user (s : DBState) (username password : String) :
    Option String :=
  (s.roles.find? (fun r => r.username == username && r.password == password)).map
    RoleRow.role

end Database

/-- Session controller state: the store, the authenticated role and
username (`None` before login), and the registered observers in
registration order, each carried as its received-message log. -/
structure AppState where
  db : DBState
  role : Option String
  username : String
  observers : List (List String)
deriving DecidableEq, Repr

namespace LibraryApp

/-- `LibraryApp.notify_observers(message)`: every registered observer
receives the message, iterating the observer list in order. -/
def notify_observers (observers : List (List String)) (message : String) :
    List (List String) :=
  observers.map (fun log => log ++ [message])

/-- `LibraryApp.login()` after the two prompts: authenticate, and either
greet (returning the role) or print the failure line and `exit()`
(returning no role).  Second component: the printed lines. -/
def login (db : DBState) (username password : String) :
    Option String × List String :=
  match Database.authenticate_user db username password with
  | some role =>
      (some role, ["Добро пожаловать, " ++ username ++ "! Ваша роль: " ++ role])
  | none => (none, ["Неверный логин или пароль."])

/-- `LibraryApp.borrow_book()` after the two prompts: role gate, then the
gateway call; on success print the success line and notify observers, on
`ValueError` print its message and leave everything unchanged. -/
def borrow_book (a : AppState) (book_id : Int) (today return_date : String) :
    AppState × List String :=
  if a.role = some "student" ∨ a.role = some "librarian" then
    match Database.borrow_book a.db book_id a.username today return_date with
    | Except.ok db' =>
        ({ a with
            db := db'
            observers := notify_observers a.observers
              ("Книга ID " ++ toString book_id ++ " выдана пользователю "
                ++ a.username ++ ".") },
          ["Книга успешно выдана!"])
    | Except.error e => (a, [e])
  else (a, ["У вас нет доступа к выдаче книг."])

/-- `LibraryApp.return_book()` after the prompt: role gate (librarian
only), then the gateway call; on success print the success line and
notify observers, on `ValueError` print its message. -/
def return_book (a : AppState) (book_id : Int) : AppState × List String :=
  if a.role = some "librarian" then
    match Database.return_book a.db book_id with
    | Except.ok db' =>
        ({ a with
            db := db'
            observers := notify_observers a.observers
              ("Книга ID " ++ toString book_id ++ " возвращена в библиотеку.") },
          ["Книга успешно возвращена!"])
    | Except.error e => (a, [e])
  else (a, ["У вас нет доступа к возврату книг."])

/-- Console input consumed by one menu action: the book id and the
return-date string typed at the prompts (`today` is the ambient date). -/
structure MenuInput where
  book_id : Int
  return_date : String
  today : String
deriving DecidableEq, Repr

/-- One iteration of the `while True` menu loop in `LibraryApp.run`,
given the typed choice and the prompt inputs.  Returns the new state,
whether the loop continues (`False` only for choice `"0"`), and the
printed lines. -/
def run_step (a : AppState) (choice : String) (inp : MenuInput) :
    AppState × Bool × List String :=
  if choice = "1" then (a, true, [])
  else if choice = "2" ∧ (a.role = some "student" ∨ a.role = some "librarian") then
    let (a', out) := borrow_book a inp.book_id inp.today inp.return_date
    (a', true, out)
  else if choice = "3" ∧ a.role = some "librarian" then
    let (a', out) := return_book a inp.book_id
    (a', true, out)
  else if choice = "0" then (a, false, [])
  else (a, true, ["Некорректный выбор. Попробуйте снова."])

/-- The menu loop run over a finite list of console interactions,
stopping early when a step chooses to exit. -/
def run_loop (a : AppState) : List (String × MenuInput) → AppState
  | [] => a
  | (choice, inp) :: rest =>
      let (a', cont, _) := run_step a choice inp
      if cont then run_loop a' rest else a'

/-- `LibraryApp.run()`: login first; on authentication failure the
process exits (`none` — the menu loop is never entered), otherwise the
menu loop runs with the authenticated role. -/
def run (db : DBState) (username password : String)
    (observers : List (List String)) (inputs : List (String × MenuInput)) :
    Option AppState :=
  match (login db username password).1 with
  | none => none
  | some role =>
      some (run_loop { db := db, role := some role, username := username,
                       observers := observers } inputs)

end LibraryApp

/-- A mutating gateway operation, for stating invariants over arbitrary
operation sequences. -/
inductive DbOp where
  | borrow (book_id : Int) (username today return_date : String)
  | ret (book_id : Int)
deriving DecidableEq, Repr

/-- Apply one operation to the store the way the controller does: a
`ValueError` from `borrow_book` is caught and the store keeps its
committed (unchanged) state. -/
def applyOp (s : DBState) : DbOp → DBState
  | DbOp.borrow book_id username today return_date =>
      match Database.borrow_book s book_id username today return_date with
      | Except.ok s' => s'
      | Except.error _ => s
  | DbOp.ret book_id =>
      match Database.return_book s book_id with
      | Except.ok s' => s'
      | Except.error _ => s

/-- The invariant of the data model: the three nullable columns of a
book row are all null or all non-null together. -/
def Book.tripleConsistent (b : Book) : Prop :=
  (b.borrowed_by = none ↔ b.borrow_date = none) ∧
    (b.borrowed_by = none ↔ b.return_date = none)

instance (b : Book) : Decidable b.tripleConsistent := by
  unfold Book.tripleConsistent
  infer_instance

/-! ### Sample data for concrete evaluations -/

/-- A roles-table row used in concrete checks. -/
def aliceRow : RoleRow :=
  { username := "alice", password := "pw", role := "student" }

/-- An available book (all three nullable columns null). -/
def book5free : Book :=
  { id := 5, title := "Dune", author := "Herbert", release_date := "1965-08-01",
    borrowed_by := none, borrow_date := none, return_date := none }

/-- The same book after alice borrowed it. -/
def book5taken : Book :=
  { id := 5, title := "Dune", author := "Herbert", release_date := "1965-08-01",
    borrowed_by := some "alice", borrow_date := some "2024-12-01",
    return_date := some "2025-01-01" }

/-- Store with one available book. -/
def dbFree : DBState := { lib := [book5free], roles := [aliceRow] }

/-- Store with the book borrowed. -/
def dbTaken : DBState := { lib := [book5taken], roles := [aliceRow] }

/-- A student session over the free store, one observer with empty log. -/
def appStudent : AppState :=
  { db := dbFree, role := some "student", username := "alice", observers := [[]] }

/-- A librarian session over the taken store, one observer with empty log. -/
def appLibrarian : AppState :=
  { db := dbTaken, role := some "librarian", username := "bob", observers := [[]] }

/-! ### Helper lemmas -/

lemma borrowWhere_iff (book_id : Int) (b : Book) :
    Database.borrowWhere book_id b = true ↔
      b.id = book_id ∧ b.borrowed_by = none := by
  simp [Database.borrowWhere]

lemma borrowRowcount_eq_zero_iff (s : DBState) (book_id : Int) :
    Database.borrowRowcount s book_id = 0 ↔
      ∀ b ∈ s.lib, ¬(b.id = book_id ∧ b.borrowed_by = none) := by
  unfold Database.borrowRowcount
  rw [List.countP_eq_zero]
  constructor
  · intro h b hb hcond
    exact h b hb ((borrowWhere_iff book_id b).mpr hcond)
  · intro h b hb hw
    exact h b hb ((borrowWhere_iff book_id b).mp hw)

/-! ### Claims -/

/-- C1: `borrow_book(book_id, username, return_date)` updates exactly the
rows whose id matches and whose `borrowed_by` is null, setting
`borrowed_by` to the username, `borrow_date` to the current date and
`return_date` to the given string, and it raises the single generic
"book unavailable" `ValueError` if and only if no row matched (book
already borrowed or id nonexistent) — both causes collapse into the one
error kind. -/
theorem borrow_book_conditional_update (s : DBState) (book_id : Int)
    (username today return_date : String) :
    Database.borrow_book s book_id username today return_date =
      (if ∃ b ∈ s.lib, b.id = book_id ∧ b.borrowed_by = none then
        Except.ok { s with lib := s.lib.map (fun b =>
          if b.id = book_id ∧ b.borrowed_by = none then
            { b with borrowed_by := some username, borrow_date := some today,
                     return_date := some return_date }
          else b) }
      else Except.error "Книга уже занята или не существует.") := by
  by_cases h : ∃ b ∈ s.lib, b.id = book_id ∧ b.borrowed_by = none
  · rw [if_pos h]
    unfold Database.borrow_book
    rw [if_neg]
    · unfold Database.borrowApply
      have hmap : s.lib.map (Database.borrowUpdateRow book_id username today return_date)
          = s.lib.map (fun b =>
              if b.id = book_id ∧ b.borrowed_by = none then
                { b with borrowed_by := some username, borrow_date := some today,
                         return_date := some return_date }
              else b) := by
        apply List.map_congr_left
        intro b _
        by_cases hb : b.id = book_id ∧ b.borrowed_by = none
        · simp only [Database.borrowUpdateRow,
            if_pos ((borrowWhere_iff book_id b).mpr hb), if_pos hb]
        · have hw : ¬ (Database.borrowWhere book_id b = true) := fun hw =>
            hb ((borrowWhere_iff book_id b).mp hw)
          simp only [Database.borrowUpdateRow, if_neg hb, if_neg hw]
      rw [hmap]
    · intro h0
      obtain ⟨b, hb, hcond⟩ := h
      exact (borrowRowcount_eq_zero_iff s book_id).mp h0 b hb hcond
  · rw [if_neg h]
    unfold Database.borrow_book
    rw [if_pos]
    rw [borrowRowcount_eq_zero_iff]
    intro b hb hcond
    exact h ⟨b, hb, hcond⟩

lemma applyOp_preserves_tripleConsistent (s : DBState) (op : DbOp)
    (h : ∀ b ∈ s.lib, b.tripleConsistent) :
    ∀ b ∈ (applyOp s op).lib, b.tripleConsistent := by
  intro b hb
  cases op with
  | borrow book_id username today return_date =>
      by_cases h0 : Database.borrowRowcount s book_id = 0
      · simp only [applyOp, Database.borrow_book, if_pos h0] at hb
        exact h b hb
      · simp only [applyOp, Database.borrow_book, if_neg h0,
          Database.borrowApply] at hb
        obtain ⟨c, hc, rfl⟩ := List.mem_map.mp hb
        by_cases hw : Database.borrowWhere book_id c = true
        · simp [Database.borrowUpdateRow, if_pos hw, Book.tripleConsistent]
        · simpa [Database.borrowUpdateRow, if_neg hw] using h c hc
  | ret book_id =>
      simp only [applyOp, Database.return_book, Database.returnApply] at hb
      obtain ⟨c, hc, rfl⟩ := List.mem_map.mp hb
      by_cases hid : c.id = book_id
      · simp [Database.returnUpdateRow, hid, Book.tripleConsistent]
      · simpa [Database.returnUpdateRow, hid] using h c hc

/-- C2: the all-null-or-all-set invariant on
`borrowed_by`/`borrow_date`/`return_date` is preserved by every sequence
of `borrow_book` and `return_book` operations (a failed borrow leaves
the store as it was): each operation either sets all three fields or
clears all three, never a proper subset. -/
theorem ops_preserve_triple_invariant (ops : List DbOp) (s : DBState)
    (h : ∀ b ∈ s.lib, b.tripleConsistent) :
    ∀ b ∈ (ops.foldl applyOp s).lib, b.tripleConsistent := by
  induction ops generalizing s with
  | nil => simpa using h
  | cons op rest ih =>
      simpa [List.foldl_cons] using
        ih (applyOp s op) (applyOp_preserves_tripleConsistent s op h)

/-- C2 witness: a concrete borrow-then-return sequence from a consistent
store keeps every row consistent. -/
theorem ops_preserve_triple_invariant_witness :
    (∀ b ∈ dbFree.lib, b.tripleConsistent) ∧
      ∀ b ∈ (([DbOp.borrow 5 "alice" "2024-12-01" "2025-01-01",
          DbOp.ret 5].foldl applyOp dbFree)).lib, b.tripleConsistent :=
  ⟨by decide, ops_preserve_triple_invariant
    [DbOp.borrow 5 "alice" "2024-12-01" "2025-01-01", DbOp.ret 5]
    dbFree (by decide)⟩

/-- C3: `return_book(book_id)` never signals an error; it returns the
store in which exactly the rows with the given id have
`borrowed_by`/`borrow_date`/`return_date` cleared to null and every
other row (and the roles table) is unchanged; when no row has the id
(never-borrowed ids clear to the nulls they already hold, nonexistent
ids match nothing) the call is a no-op. -/
theorem return_book_unconditional_clear (s : DBState) (book_id : Int) :
    Database.return_book s book_id =
      Except.ok { s with lib := s.lib.map (fun b =>
        if b.id = book_id then
          { b with borrowed_by := none, borrow_date := none,
                   return_date := none }
        else b) }
    ∧ ((∀ b ∈ s.lib, b.id ≠ book_id) →
        Database.return_book s book_id = Except.ok s) := by
  constructor
  · unfold Database.return_book Database.returnApply
    have hmap : s.lib.map (Database.returnUpdateRow book_id)
        = s.lib.map (fun b =>
            if b.id = book_id then
              { b with borrowed_by := none, borrow_date := none,
                       return_date := none }
            else b) := by
      apply List.map_congr_left
      intro b _
      by_cases hb : b.id = book_id
      · simp [Database.returnUpdateRow, hb]
      · simp [Database.returnUpdateRow, hb]
    rw [hmap]
  · intro hne
    unfold Database.return_book Database.returnApply
    have hmap : s.lib.map (Database.returnUpdateRow book_id) = s.lib := by
      have h1 : s.lib.map (Database.returnUpdateRow book_id)
          = s.lib.map id := by
        apply List.map_congr_left
        intro b hb
        simp [Database.returnUpdateRow, hne b hb]
      rw [h1, List.map_id]
    rw [hmap]

/-- C3 witness: returning an id absent from the store is a no-op with no
error. -/
theorem return_book_unconditional_clear_witness :
    (∀ b ∈ dbTaken.lib, b.id ≠ (7 : Int)) ∧
      Database.return_book dbTaken 7 = Except.ok dbTaken :=
  ⟨by decide, (return_book_unconditional_clear dbTaken 7).2 (by decide)⟩

/-- C4: `authenticate_user(username, password)` returns a stored role
exactly when a roles-table row with that exact username and that exact
plaintext password exists; the role returned is the one stored on such a
row, and every non-matching pair yields absence (access denied).  The
comparison is plain equality of the stored strings. -/
theorem authenticate_user_exact_match (s : DBState) (username password : String) :
    ((Database.authenticate_user s username password).isSome ↔
      ∃ r ∈ s.roles, r.username = username ∧ r.password = password)
    ∧ (∀ role, Database.authenticate_user s username password = some role →
        ∃ r ∈ s.roles, r.username = username ∧ r.password = password ∧
          r.role = role)
    ∧ ((∀ r ∈ s.roles, ¬(r.username = username ∧ r.password = password)) →
        Database.authenticate_user s username password = none) := by
  refine ⟨?_, ?_, ?_⟩
  · unfold Database.authenticate_user
    rw [Option.isSome_map']
    rw [List.find?_isSome]
    constructor
    · rintro ⟨r, hr, hp⟩
      simp only [Bool.and_eq_true, beq_iff_eq] at hp
      exact ⟨r, hr, hp⟩
    · rintro ⟨r, hr, hu, hp⟩
      exact ⟨r, hr, by simp [hu, hp]⟩
  · intro role hrole
    unfold Database.authenticate_user at hrole
    obtain ⟨r, hfind, hr⟩ := Option.map_eq_some'.mp hrole
    have hmem := List.mem_of_find?_eq_some hfind
    have hp := List.find?_some hfind
    simp only [Bool.and_eq_true, beq_iff_eq] at hp
    exact ⟨r, hmem, hp.1, hp.2, hr⟩
  · intro hnone
    unfold Database.authenticate_user
    rw [Option.map_eq_none']
    rw [List.find?_eq_none]
    intro r hr
    simp only [Bool.and_eq_true, beq_iff_eq, not_and]
    intro hu hp
    exact hnone r hr ⟨hu, hp⟩

/-- C4 witness: the matching pair ("alice", "pw") yields the stored role
"student". -/
theorem authenticate_user_exact_match_witness :
    ∃ r ∈ dbFree.roles, r.username = "alice" ∧ r.password = "pw" ∧
      r.role = "student" :=
  (authenticate_user_exact_match dbFree "alice" "pw").2.1 "student" (by decide)

/-- C5: when ids are unique (primary key) and a book is currently
borrowed, borrowing it again raises the "book unavailable" `ValueError`
and the committed UPDATE touches no row — the whole store, that book's
three fields included, is exactly as the earlier borrow left it. -/
theorem second_borrow_fails_state_unchanged (s : DBState) (b : Book)
    (holder username today return_date : String)
    (hnd : (s.lib.map Book.id).Nodup) (hb : b ∈ s.lib)
    (hbor : b.borrowed_by = some holder) :
    Database.borrow_book s b.id username today return_date =
      Except.error "Книга уже занята или не существует."
    ∧ Database.borrowApply s b.id username today return_date = s := by
  have hno : ∀ c ∈ s.lib, Database.borrowWhere b.id c = false := by
    intro c hc
    by_cases hid : c.id = b.id
    · have hcb : c = b := List.inj_on_of_nodup_map hnd hc hb hid
      subst hcb
      simp [Database.borrowWhere, hbor]
    · simp [Database.borrowWhere, hid]
  have h0 : Database.borrowRowcount s b.id = 0 :=
    List.countP_eq_zero.mpr (fun c hc => by simp [hno c hc])
  refine ⟨?_, ?_⟩
  · unfold Database.borrow_book
    rw [if_pos h0]
  · unfold Database.borrowApply
    have hmap : s.lib.map
        (Database.borrowUpdateRow b.id username today return_date) = s.lib := by
      have h1 : s.lib.map
          (Database.borrowUpdateRow b.id username today return_date)
          = s.lib.map id := by
        apply List.map_congr_left
        intro c hc
        simp [Database.borrowUpdateRow, hno c hc]
      rw [h1, List.map_id]
    rw [hmap]

/-- C5 witness: re-borrowing book 5 while alice holds it fails with the
generic error and commits no change. -/
theorem second_borrow_fails_state_unchanged_witness :
    Database.borrow_book dbTaken 5 "bob" "2026-01-01" "2026-02-01" =
      Except.error "Книга уже занята или не существует."
    ∧ Database.borrowApply dbTaken 5 "bob" "2026-01-01" "2026-02-01" = dbTaken :=
  second_borrow_fails_state_unchanged dbTaken book5taken "alice" "bob"
    "2026-01-01" "2026-02-01" (by decide) (by decide) (by decide)

/-- C6: a session whose role is not "librarian" (e.g. a student) that
invokes the return menu action is rejected with a message; the loop
dispatch never reaches `LibraryApp.return_book` (the guard on choice "3"
fails, printing the invalid-choice line), and even a direct call to the
controller's `return_book` stops at its own role gate — either way the
session state, the book table and the observers are unchanged and the
gateway's `return_book` is never run. -/
theorem student_return_rejected_no_mutation (a : AppState) (inp : LibraryApp.MenuInput)
    (h : a.role ≠ some "librarian") :
    LibraryApp.run_step a "3" inp =
      (a, true, ["Некорректный выбор. Попробуйте снова."])
    ∧ LibraryApp.return_book a inp.book_id =
      (a, ["У вас нет доступа к возврату книг."]) := by
  constructor
  · have h1 : ¬(("3" : String) = "1") := by decide
    have h2 : ¬(("3" : String) = "2" ∧
        (a.role = some "student" ∨ a.role = some "librarian")) := by
      rintro ⟨hc, -⟩
      exact absurd hc (by decide)
    have h3 : ¬(("3" : String) = "3" ∧ a.role = some "librarian") := by
      rintro ⟨-, hr⟩
      exact h hr
    have h4 : ¬(("3" : String) = "0") := by decide
    unfold LibraryApp.run_step
    rw [if_neg h1, if_neg h2, if_neg h3, if_neg h4]
  · unfold LibraryApp.return_book
    rw [if_neg h]

/-- C6 witness: the student session is rejected on both paths with no
state change. -/
theorem student_return_rejected_no_mutation_witness :
    LibraryApp.run_step appStudent "3" ⟨5, "2025-01-01", "2024-12-01"⟩ =
      (appStudent, true, ["Некорректный выбор. Попробуйте снова."])
    ∧ LibraryApp.return_book appStudent 5 =
      (appStudent, ["У вас нет доступа к возврату книг."]) :=
  student_return_rejected_no_mutation appStudent ⟨5, "2025-01-01", "2024-12-01"⟩
    (by decide)

/-- C7: after a successful borrow, and after a (librarian) return, the
controller appends exactly one formatted message to every registered
observer, iterating them in registration order; when the borrow raises
the unavailability error nothing is delivered and the whole app state is
unchanged. -/
theorem observers_notified_on_success_only (a : AppState) (book_id : Int)
    (today return_date : String)
    (hrole : a.role = some "student" ∨ a.role = some "librarian") :
    (∀ db', Database.borrow_book a.db book_id a.username today return_date =
        Except.ok db' →
      (LibraryApp.borrow_book a book_id today return_date).1.observers =
        a.observers.map (fun log => log ++
          ["Книга ID " ++ toString book_id ++ " выдана пользователю "
            ++ a.username ++ "."]))
    ∧ (∀ e, Database.borrow_book a.db book_id a.username today return_date =
        Except.error e →
      (LibraryApp.borrow_book a book_id today return_date).1 = a)
    ∧ (a.role = some "librarian" →
      (LibraryApp.return_book a book_id).1.observers =
        a.observers.map (fun log => log ++
          ["Книга ID " ++ toString book_id ++ " возвращена в библиотеку."])) := by
  refine ⟨?_, ?_, ?_⟩
  · intro db' hok
    unfold LibraryApp.borrow_book
    rw [if_pos hrole, hok]
    rfl
  · intro e herr
    unfold LibraryApp.borrow_book
    rw [if_pos hrole, herr]
  · intro hlib
    unfold LibraryApp.return_book
    rw [if_pos hlib]
    rfl

/-- C7 witness: alice's successful borrow of the free book delivers the
formatted message to the single observer. -/
theorem observers_notified_on_success_only_witness :
    (LibraryApp.borrow_book appStudent 5 "2024-12-01" "2025-01-01").1.observers =
      appStudent.observers.map (fun log => log ++
        ["Книга ID " ++ toString (5 : Int) ++ " выдана пользователю "
          ++ appStudent.username ++ "."]) :=
  (observers_notified_on_success_only appStudent 5 "2024-12-01" "2025-01-01"
      (Or.inl rfl)).1
    (Database.borrowApply appStudent.db 5 appStudent.username
      "2024-12-01" "2025-01-01")
    (by rfl)

/-- C8: authentication failure is fatal — the menu loop of `run` is
entered if and only if `authenticate_user` found a role; on a
non-matching pair, `login` prints exactly the failure line and the
process exits with the loop never run. -/
theorem login_failure_fatal (db : DBState) (username password : String)
    (observers : List (List String)) (inputs : List (String × LibraryApp.MenuInput)) :
    (LibraryApp.run db username password observers inputs = none ↔
      Database.authenticate_user db username password = none)
    ∧ (Database.authenticate_user db username password = none →
        LibraryApp.login db username password =
          (none, ["Неверный логин или пароль."])) := by
  constructor
  · cases hauth : Database.authenticate_user db username password with
    | none => simp [LibraryApp.run, LibraryApp.login, hauth]
    | some r => simp [LibraryApp.run, LibraryApp.login, hauth]
  · intro hnone
    unfold LibraryApp.login
    rw [hnone]

/-- C8 witness: a wrong password prints the failure line and `run`
never enters the menu loop. -/
theorem login_failure_fatal_witness :
    LibraryApp.login dbFree "alice" "wrong" =
      (none, ["Неверный логин или пароль."])
    ∧ LibraryApp.run dbFree "alice" "wrong" [[]] [] = none :=
  ⟨(login_failure_fatal dbFree "alice" "wrong" [[]] []).2 (by decide),
    (login_failure_fatal dbFree "alice" "wrong" [[]] []).1.mpr (by decide)⟩

/-- C9: the `ValueError` handler in the controller's return action is
dead code — `Database.return_book` always returns success, never an
error, for every store and id; hence whenever the librarian role gate
passes, the controller's return action prints the success line. -/
theorem return_value_error_unreachable (s : DBState) (book_id : Int)
    (a : AppState) :
    (∃ s', Database.return_book s book_id = Except.ok s')
    ∧ (∀ e, Database.return_book s book_id ≠ Except.error e)
    ∧ (a.role = some "librarian" →
        (LibraryApp.return_book a book_id).2 = ["Книга успешно возвращена!"]) := by
  refine ⟨⟨Database.returnApply s book_id, rfl⟩, ?_, ?_⟩
  · intro e he
    simp [Database.return_book] at he
  · intro hr
    unfold LibraryApp.return_book
    rw [if_pos hr]
    rfl

/-- C9 witness: the librarian session's return of book 5 takes the
success path. -/
theorem return_value_error_unreachable_witness :
    (LibraryApp.return_book appLibrarian 5).2 = ["Книга успешно возвращена!"] :=
  (return_value_error_unreachable appLibrarian.db 5 appLibrarian).2.2 (by decide)

lemma returnUpdateRow_idem (book_id : Int) (b : Book) :
    Database.returnUpdateRow book_id (Database.returnUpdateRow book_id b) =
      Database.returnUpdateRow book_id b := by
  by_cases hid : b.id = book_id
  · simp [Database.returnUpdateRow, hid]
  · simp [Database.returnUpdateRow, hid]

lemma returnUpdateRow_borrowUpdateRow (book_id : Int)
    (username today return_date : String) (b : Book) :
    Database.returnUpdateRow book_id
        (Database.borrowUpdateRow book_id username today return_date b) =
      Database.returnUpdateRow book_id b := by
  by_cases hw : Database.borrowWhere book_id b = true
  · have hid : b.id = book_id := ((borrowWhere_iff book_id b).mp hw).1
    simp [Database.borrowUpdateRow, hw, Database.returnUpdateRow, hid]
  · simp [Database.borrowUpdateRow, hw]

lemma returnApply_eq_self_of_cleared (s : DBState) (book_id : Int)
    (h : ∀ b ∈ s.lib, b.id = book_id → b.borrowed_by = none ∧
      b.borrow_date = none ∧ b.return_date = none) :
    Database.returnApply s book_id = s := by
  unfold Database.returnApply
  have hmap : s.lib.map (Database.returnUpdateRow book_id) = s.lib := by
    have h1 : s.lib.map (Database.returnUpdateRow book_id) = s.lib.map id := by
      apply List.map_congr_left
      intro b hb
      by_cases hid : b.id = book_id
      · obtain ⟨h1, h2, h3⟩ := h b hb hid
        cases b
        simp_all [Database.returnUpdateRow]
      · simp [Database.returnUpdateRow, hid]
    rw [h1, List.map_id]
  rw [hmap]

/-- C10: `return_book` is idempotent — clearing the same id twice equals
clearing it once — and a successful borrow followed by a return of the
same id yields the same store as returning without the borrow; when
every row with that id started with the all-null triple (as the
invariant guarantees for a borrowable book), the borrow-then-return
round trip restores the store, that book's triple included, exactly. -/
theorem return_book_idempotent_and_restores (s : DBState) (book_id : Int)
    (username today return_date : String) :
    Database.returnApply (Database.returnApply s book_id) book_id =
      Database.returnApply s book_id
    ∧ (∀ s', Database.borrow_book s book_id username today return_date =
          Except.ok s' →
        Database.returnApply s' book_id = Database.returnApply s book_id
        ∧ ((∀ b ∈ s.lib, b.id = book_id → b.borrowed_by = none ∧
              b.borrow_date = none ∧ b.return_date = none) →
            Database.returnApply s' book_id = s)) := by
  constructor
  · have h1 : (s.lib.map (Database.returnUpdateRow book_id)).map
        (Database.returnUpdateRow book_id)
        = s.lib.map (Database.returnUpdateRow book_id) := by
      rw [List.map_map]
      apply List.map_congr_left
      intro b _
      exact returnUpdateRow_idem book_id b
    simp only [Database.returnApply]
    rw [h1]
  · intro s' hok
    by_cases h0 : Database.borrowRowcount s book_id = 0
    · unfold Database.borrow_book at hok
      rw [if_pos h0] at hok
      exact absurd hok (by simp)
    · unfold Database.borrow_book at hok
      rw [if_neg h0] at hok
      injection hok with hs'
      subst hs'
      have hba : Database.returnApply
          (Database.borrowApply s book_id username today return_date) book_id
          = Database.returnApply s book_id := by
        simp only [Database.returnApply, Database.borrowApply]
        rw [List.map_map]
        apply congrArg (fun l => DBState.mk l s.roles)
        apply List.map_congr_left
        intro b _
        exact returnUpdateRow_borrowUpdateRow book_id username today
          return_date b
      refine ⟨hba, ?_⟩
      intro hnull
      rw [hba]
      exact returnApply_eq_self_of_cleared s book_id hnull

/-- C10 witness: borrowing the free book 5 and then returning it
restores the original store exactly. -/
theorem return_book_idempotent_and_restores_witness :
    Database.returnApply
      (Database.borrowApply dbFree 5 "alice" "2024-12-01" "2025-01-01") 5 =
      dbFree :=
  (((return_book_idempotent_and_restores dbFree 5 "alice" "2024-12-01"
        "2025-01-01").2
      (Database.borrowApply dbFree 5 "alice" "2024-12-01" "2025-01-01")
      (by rfl)).2) (by decide)
